import Mathlib

/-!
Verification development for the SyncManager state machine
(src/SyncManager.js, a TypeScript class).

The class is embedded shallowly: the mutable instance fields
(state, retries, isStopped) become an explicit machine-state record,
network calls are abstracted by an environment oracle giving each
request's outcome, and every `this.emit(...)` becomes an element of an
event trace.  The external `stop()` call, which in the source may run
while a loop is suspended on an `await`, is modelled by per-iteration
stop points in the environment: a flag saying whether `stop()` fired
while that iteration's network call (or sleep) was in flight.
-/

set_option linter.unusedVariables false

namespace LasLunas

/-- The SyncState union type of the source. -/
inductive SyncState where
  | idle
  | searching
  | connected
  | listening
  | deploying
  | error
deriving DecidableEq, Repr

/-- JSON-expressible JavaScript values, as produced by response.json(). -/
inductive JSValue where
  | null
  | undefined
  | bool (b : Bool)
  | num (n : Int)
  | str (s : String)
  | obj (fields : List (String × JSValue))
  | arr (elems : List JSValue)

/-- JavaScript typeof on the modelled values. -/
def JSValue.typeof : JSValue → String
  | .null => "object"
  | .undefined => "undefined"
  | .bool _ => "boolean"
  | .num _ => "number"
  | .str _ => "string"
  | .obj _ => "object"
  | .arr _ => "object"

def JSValue.isNull : JSValue → Bool
  | .null => true
  | _ => false

/-- Property access v.k.  In the source every property access is guarded
so that it is only performed on objects (or on truthy values in the
deploy-signal check); on the other values it yields undefined. -/
def JSValue.getProp (v : JSValue) (k : String) : JSValue :=
  match v with
  | .obj fields => (List.lookup k fields).getD JSValue.undefined
  | _ => JSValue.undefined

/-- JavaScript truthiness of a JSON value. -/
def jsTruthy : JSValue → Bool
  | .null => false
  | .undefined => false
  | .bool b => b
  | .num n => n != 0
  | .str s => s != ""
  | .obj _ => true
  | .arr _ => true

/-- body.deploy === true, the deploy-signal approval check. -/
def jsDeployTrue (v : JSValue) : Bool :=
  match v.getProp "deploy" with
  | .bool b => b
  | _ => false

/-- v === n for a configured number n (strict equality). -/
def numEq (v : JSValue) (n : Int) : Bool :=
  match v with
  | .num m => m == n
  | _ => false

/-- v === s for a string s (strict equality). -/
def strEq (v : JSValue) (s : String) : Bool :=
  match v with
  | .str t => t == s
  | _ => false

/-- isSyncData from the source: non-null object whose internalCode is a
number and whose botId is a string. -/
def isSyncData (v : JSValue) : Bool :=
  !v.isNull && v.typeof == "object"
    && (v.getProp "internalCode").typeof == "number"
    && (v.getProp "botId").typeof == "string"

/-- Every event the class emits, with its payload. -/
inductive Event where
  | stateChange (s : SyncState)
  | attempt (n : Nat)
  | retrying (n : Nat)
  | gemeloFound (peerId : String)
  | connected
  | listening
  | waitingDeploySignal
  | deploySignalReceived
  | deploySignalTimeout
  | deployStart
  | downloadStart (url : String)
  | downloadComplete (filename : String)
  | deployFilesWritten
  | execStart (cmd : String)
  | execSuccess
  | execError (msg : String)
  | deploySuccess
  | wokeGemelo
  | error (msg : String)
deriving DecidableEq, Repr

/-- SyncConfig of the source. -/
structure SyncConfig where
  maxRetries : Nat
  retryIntervalMs : Nat
  connectionTimeoutMs : Nat
  internalCode : Int
  pingUrl : String
  botsFilesUrls : List String
  botsExecCommand : String
  deployPath : String
deriving DecidableEq, Repr

/-- Partial SyncConfig, the caller-supplied overrides. -/
structure PartialSyncConfig where
  maxRetries : Option Nat := none
  retryIntervalMs : Option Nat := none
  connectionTimeoutMs : Option Nat := none
  internalCode : Option Int := none
  pingUrl : Option String := none
  botsFilesUrls : Option (List String) := none
  botsExecCommand : Option String := none
  deployPath : Option String := none
deriving DecidableEq, Repr

/-- SyncManagerOptions of the source. -/
structure SyncOptions where
  botId : String
  teraboxBaseUrl : String
deriving DecidableEq, Repr

/-- The constructor's configuration merge: spread the defaults, spread the
caller overrides on top, then derive pingUrl when it is falsy (empty). -/
def mkConfig (opts : SyncOptions) (pc : PartialSyncConfig) : SyncConfig :=
  let merged : SyncConfig := {
    maxRetries := pc.maxRetries.getD 5
    retryIntervalMs := pc.retryIntervalMs.getD 7000
    connectionTimeoutMs := pc.connectionTimeoutMs.getD 8000
    internalCode := pc.internalCode.getD 720
    pingUrl := pc.pingUrl.getD ""
    botsFilesUrls := pc.botsFilesUrls.getD []
    botsExecCommand := pc.botsExecCommand.getD "node bot.js"
    deployPath := pc.deployPath.getD "./deployedBots" }
  if merged.pingUrl = "" then
    { merged with pingUrl := opts.teraboxBaseUrl ++ "/sync/ping?botId=" ++ opts.botId }
  else merged

/-- The mutable instance fields of the class. -/
structure MState where
  state : SyncState
  retries : Nat
  isStopped : Bool
deriving DecidableEq, Repr

/-- Result of running a piece of the machine: the final instance fields,
the events emitted (in order), the values assigned to this.state (in
order), and the files written (path, content, in order). -/
structure Out where
  st : MState
  events : List Event
  assigns : List SyncState
  writes : List (String × String)
deriving DecidableEq, Repr

/-- Outcome of a fetch whose body is parsed as JSON: the fetch or the
parse threw, or the response was not ok, or a parsed body. -/
inductive FetchResult where
  | exn (msg : String)
  | notOk
  | ok (body : JSValue)

/-- Outcome of a fetch whose body is read as text. -/
inductive HttpText where
  | exn (msg : String)
  | notOk
  | ok (body : String)
deriving DecidableEq, Repr

/-- One loop iteration's slice of the environment: whether stop() fired
while the iteration's network call was in flight, the call's outcome,
and whether stop() fired during the iteration's sleep. -/
structure NetIter where
  stopDuringFetch : Bool
  resp : FetchResult
  stopDuringSleep : Bool

/-- Environment of the deploy phase: mkdir outcome, per-url download
outcome, per-path write outcome, exec outcome (some msg = failure). -/
structure DeployEnv where
  mkdirError : Option String
  fetchFile : String → HttpText
  writeError : String → Option String
  execFailure : Option String

/-- Outcome of the wake-up POST. -/
inductive WakeResult where
  | exn (msg : String)
  | notOk
  | ok
deriving DecidableEq, Repr

/-- The match condition of tryConnectToGemelo, verbatim from the source:
isSyncData(data) and data.internalCode === config.internalCode and
data.botId !== options.botId. -/
def matchCond (cfg : SyncConfig) (opts : SyncOptions) (data : JSValue) : Bool :=
  isSyncData data && numEq (data.getProp "internalCode") cfg.internalCode
    && !(strEq (data.getProp "botId") opts.botId)

def JSValue.asString : JSValue → String
  | .str s => s
  | _ => ""

/-- tryConnectToGemelo: a thrown fetch, an aborted (timed out) fetch, a
json() failure, a non-ok response, or a non-matching body all yield
false; a matching body emits gemeloFound and yields true.  The source
wraps the whole body in try/catch, so the function never throws. -/
def tryConnectToGemelo (cfg : SyncConfig) (opts : SyncOptions) :
    FetchResult → Bool × List Event
  | .exn _ => (false, [])
  | .notOk => (false, [])
  | .ok data =>
    if matchCond cfg opts data then
      (true, [Event.gemeloFound (data.getProp "botId").asString])
    else
      (false, [])

/-- stop(): set the stop flag, assign idle, emit the change. -/
def stop (st : MState) : Out :=
  ⟨{ st with isStopped := true, state := SyncState.idle },
   [Event.stateChange SyncState.idle], [SyncState.idle], []⟩

/-- Apply stop() at an interleaving point when the flag says it fired. -/
def maybeStop (b : Bool) (st : MState) : Out :=
  if b then stop st else ⟨st, [], [], []⟩

/-- setError: assign error, emit the change, emit the error event. -/
def setError (msg : String) (st : MState) : Out :=
  ⟨{ st with state := SyncState.error },
   [Event.stateChange SyncState.error, Event.error msg], [SyncState.error], []⟩

/-- The code after the probe loop: assign listening, emit the change,
emit listening. -/
def listeningOut (st : MState) : Out :=
  ⟨{ st with state := SyncState.listening },
   [Event.stateChange SyncState.listening, Event.listening],
   [SyncState.listening], []⟩

/-- The code after the poll loop: emit deploySignalTimeout, then
setError with the Spanish timeout message. -/
def signalTimeoutOut (st : MState) : Out :=
  ⟨{ st with state := SyncState.error },
   [Event.deploySignalTimeout, Event.stateChange SyncState.error,
    Event.error "Timeout esperando señal de deploy"],
   [SyncState.error], []⟩

/-- path.basename modelled as the final slash-separated segment: scan
the characters, restarting the accumulator after every slash. -/
def basename (url : String) : String :=
  (url.toList.foldl (fun acc c => if c = '/' then [] else acc ++ [c]) []).asString

/-- Intermediate result of the download for-loop: events, writes, and
the exception it threw, if any. -/
structure DownloadOut where
  events : List Event
  writes : List (String × String)
  thrown : Option String
deriving DecidableEq, Repr

/-- The for-loop of deployBots: per url emit downloadStart, fetch (a
non-ok response throws the Spanish download error), write the body,
emit downloadComplete; any throw aborts the remaining urls. -/
def downloadAll (cfg : SyncConfig) (env : DeployEnv) : List String → DownloadOut
  | [] => ⟨[], [], none⟩
  | url :: rest =>
    match env.fetchFile url with
    | .exn m => ⟨[Event.downloadStart url], [], some m⟩
    | .notOk =>
      ⟨[Event.downloadStart url], [], some ("No se pudo descargar archivo: " ++ url)⟩
    | .ok body =>
      match env.writeError (cfg.deployPath ++ "/" ++ basename url) with
      | some m => ⟨[Event.downloadStart url], [], some m⟩
      | none =>
        let r := downloadAll cfg env rest
        ⟨Event.downloadStart url :: Event.downloadComplete (basename url) :: r.events,
         (cfg.deployPath ++ "/" ++ basename url, body) :: r.writes, r.thrown⟩

/-- deployBots: everything inside one try/catch whose handler is
setError, so the function absorbs every failure.  mkdir, then the
download loop, then deployFilesWritten, then execCommand (which emits
execStart, and on failure execError before rejecting), then
deploySuccess. -/
def deployBots (cfg : SyncConfig) (env : DeployEnv) (st : MState) : Out :=
  match env.mkdirError with
  | some m =>
    let e := setError m st
    ⟨e.st, Event.deployStart :: e.events, e.assigns, []⟩
  | none =>
    let d := downloadAll cfg env cfg.botsFilesUrls
    match d.thrown with
    | some m =>
      let e := setError m st
      ⟨e.st, Event.deployStart :: d.events ++ e.events, e.assigns, d.writes⟩
    | none =>
      match env.execFailure with
      | some m =>
        let e := setError m st
        ⟨e.st,
         Event.deployStart :: d.events ++
           [Event.deployFilesWritten, Event.execStart cfg.botsExecCommand,
            Event.execError m] ++ e.events,
         e.assigns, d.writes⟩
      | none =>
        ⟨st,
         Event.deployStart :: d.events ++
           [Event.deployFilesWritten, Event.execStart cfg.botsExecCommand,
            Event.execSuccess, Event.deploySuccess],
         [], d.writes⟩

/-- Whether deployBots hits any failure in the given environment. -/
def deployFails (cfg : SyncConfig) (env : DeployEnv) : Bool :=
  env.mkdirError.isSome || (downloadAll cfg env cfg.botsFilesUrls).thrown.isSome
    || env.execFailure.isSome

/-- The deploy-approval test body && body.deploy === true. -/
def approvingBody (body : JSValue) : Bool :=
  jsTruthy body && jsDeployTrue body

/-- Whether a poll outcome triggers deployment. -/
def approvingPoll : FetchResult → Bool
  | .ok body => approvingBody body
  | _ => false

/-- maxPolls, hard-coded in waitForDeploySignal. -/
def maxPolls : Nat := 30

/-- The while loop of waitForDeploySignal.  The first argument of the
recursion is the polls counter, the second the remaining budget
(maxPolls - polls); both exits run the timeout/setError tail code. -/
def waitLoopGo (cfg : SyncConfig) (senv : Nat → NetIter) (denv : DeployEnv) :
    Nat → Nat → MState → Out
  | _, 0, st => signalTimeoutOut st
  | polls, fuel+1, st =>
    if st.isStopped = true then signalTimeoutOut st
    else
      let it := senv polls
      let s1 := maybeStop it.stopDuringFetch st
      match it.resp with
      | .ok body =>
        if approvingBody body then
          let d := deployBots cfg denv s1.st
          ⟨d.st, s1.events ++ [Event.deploySignalReceived] ++ d.events,
           s1.assigns ++ d.assigns, d.writes⟩
        else
          let s2 := maybeStop it.stopDuringSleep s1.st
          let r := waitLoopGo cfg senv denv (polls+1) fuel s2.st
          ⟨r.st, s1.events ++ s2.events ++ r.events,
           s1.assigns ++ s2.assigns ++ r.assigns, r.writes⟩
      | .notOk =>
        let s2 := maybeStop it.stopDuringSleep s1.st
        let r := waitLoopGo cfg senv denv (polls+1) fuel s2.st
        ⟨r.st, s1.events ++ s2.events ++ r.events,
         s1.assigns ++ s2.assigns ++ r.assigns, r.writes⟩
      | .exn m =>
        let s2 := maybeStop it.stopDuringSleep s1.st
        let r := waitLoopGo cfg senv denv (polls+1) fuel s2.st
        ⟨r.st, s1.events ++ [Event.error m] ++ s2.events ++ r.events,
         s1.assigns ++ s2.assigns ++ r.assigns, r.writes⟩

/-- waitForDeploySignal: emit waitingDeploySignal, assign deploying,
emit the change, run the poll loop. -/
def waitForDeploySignal (cfg : SyncConfig) (senv : Nat → NetIter) (denv : DeployEnv)
    (st : MState) : Out :=
  let st1 : MState := { st with state := SyncState.deploying }
  let r := waitLoopGo cfg senv denv 0 maxPolls st1
  ⟨r.st,
   Event.waitingDeploySignal :: Event.stateChange SyncState.deploying :: r.events,
   SyncState.deploying :: r.assigns, r.writes⟩

/-- The while loop of attemptConnectionLoop.  First argument is the
iteration index into the probe environment, second the remaining
budget (maxRetries - retries); both exits run the listening tail
code.  A connected attempt assigns connected, emits, then runs
waitForDeploySignal and returns. -/
def probeLoopGo (cfg : SyncConfig) (opts : SyncOptions) (penv senv : Nat → NetIter)
    (denv : DeployEnv) : Nat → Nat → MState → Out
  | _, 0, st => listeningOut st
  | i, fuel+1, st =>
    if st.isStopped = true ∨ cfg.maxRetries ≤ st.retries then listeningOut st
    else
      let it := penv i
      let s1 := maybeStop it.stopDuringFetch st
      let c := tryConnectToGemelo cfg opts it.resp
      if c.1 = true then
        let st2 : MState := { s1.st with state := SyncState.connected }
        let w := waitForDeploySignal cfg senv denv st2
        ⟨w.st,
         Event.attempt (st.retries+1) :: s1.events ++ c.2 ++
           [Event.stateChange SyncState.connected, Event.connected] ++ w.events,
         s1.assigns ++ [SyncState.connected] ++ w.assigns, w.writes⟩
      else
        let st2 : MState := { s1.st with retries := s1.st.retries + 1 }
        if cfg.maxRetries ≤ st2.retries then
          let l := listeningOut st2
          ⟨l.st,
           Event.attempt (st.retries+1) :: s1.events ++ c.2 ++
             [Event.retrying st2.retries] ++ l.events,
           s1.assigns ++ l.assigns, []⟩
        else
          let s2 := maybeStop it.stopDuringSleep st2
          let r := probeLoopGo cfg opts penv senv denv (i+1) fuel s2.st
          ⟨r.st,
           Event.attempt (st.retries+1) :: s1.events ++ c.2 ++
             [Event.retrying st2.retries] ++ s2.events ++ r.events,
           s1.assigns ++ s2.assigns ++ r.assigns, r.writes⟩

/-- attemptConnectionLoop entered with the loop budget. -/
def attemptConnectionLoop (cfg : SyncConfig) (opts : SyncOptions)
    (penv senv : Nat → NetIter) (denv : DeployEnv) (st : MState) : Out :=
  probeLoopGo cfg opts penv senv denv 0 cfg.maxRetries st

/-- start(): clear the stop flag, assign searching, reset retries, emit
the change, run the probe loop.  (The probe loop never throws in the
model, so the surrounding try/catch of start is inert.) -/
def startRun (cfg : SyncConfig) (opts : SyncOptions) (penv senv : Nat → NetIter)
    (denv : DeployEnv) (st : MState) : Out :=
  let st1 : MState := { st with isStopped := false, state := SyncState.searching, retries := 0 }
  let r := attemptConnectionLoop cfg opts penv senv denv st1
  ⟨r.st, Event.stateChange SyncState.searching :: r.events,
   SyncState.searching :: r.assigns, r.writes⟩

/-- wakeUpGemelo: no-op unless listening; emits wokeGemelo on an ok
response, nothing on a non-ok response, and the error event when the
fetch throws. -/
def wakeUpGemelo (st : MState) (res : WakeResult) : Out :=
  if st.state = SyncState.listening then
    match res with
    | .exn m => ⟨st, [Event.error m], [], []⟩
    | .notOk => ⟨st, [], [], []⟩
    | .ok => ⟨st, [Event.wokeGemelo], [], []⟩
  else ⟨st, [], [], []⟩

/-- The events of a run of the probe loop that misses every attempt:
fuel remaining attempts, r retries so far. -/
def probeTrace : Nat → Nat → List Event
  | 0, _ => [Event.stateChange SyncState.listening, Event.listening]
  | fuel+1, r => Event.attempt (r+1) :: Event.retrying (r+1) :: probeTrace fuel (r+1)

/-- The error events of a run of the poll loop that never gets approval:
p the current poll index, fuel the remaining polls. -/
def pollErrTrace (senv : Nat → NetIter) : Nat → Nat → List Event
  | _, 0 => []
  | p, fuel+1 =>
    (match (senv p).resp with
     | FetchResult.exn m => [Event.error m]
     | _ => []) ++ pollErrTrace senv (p+1) fuel

/-- The download events of an all-successful run over the given urls. -/
def okDownloadTrace : List String → List Event
  | [] => []
  | u :: rest =>
    Event.downloadStart u :: Event.downloadComplete (basename u) :: okDownloadTrace rest

def bodyText : HttpText → String
  | HttpText.ok b => b
  | _ => ""

/-- The files written by an all-successful run over the given urls. -/
def okWrites (cfg : SyncConfig) (env : DeployEnv) : List String → List (String × String)
  | [] => []
  | u :: rest =>
    (cfg.deployPath ++ "/" ++ basename u, bodyText (env.fetchFile u)) :: okWrites cfg env rest

def isAttemptEv : Event → Bool
  | .attempt _ => true
  | _ => false

def isRetryingEv : Event → Bool
  | .retrying _ => true
  | _ => false

def isErrorEv : Event → Bool
  | .error _ => true
  | _ => false

def isTimeoutEv : Event → Bool
  | .deploySignalTimeout => true
  | _ => false

/-- The payloads of the stateChange events of a trace, in order. -/
def scPayloads (evs : List Event) : List SyncState :=
  evs.filterMap fun e =>
    match e with
    | Event.stateChange s => some s
    | _ => none

/-- A small concrete configuration used to exercise the machine. -/
def sampleCfg : SyncConfig :=
  { maxRetries := 3, retryIntervalMs := 10, connectionTimeoutMs := 8000,
    internalCode := 720, pingUrl := "p", botsFilesUrls := [],
    botsExecCommand := "node bot.js", deployPath := "./d" }

def sampleOpts : SyncOptions := ⟨"me", "base"⟩

/-- A quiet probe/poll iteration whose request gets a non-ok response. -/
def missIter : NetIter := ⟨false, FetchResult.notOk, false⟩

/-- A deploy environment with no urls to fail on and a succeeding exec. -/
def emptyDeployEnv : DeployEnv := ⟨none, fun _ => HttpText.notOk, fun _ => none, none⟩

def idleSt : MState := ⟨SyncState.idle, 0, false⟩

/-- The sample configuration with two artifact urls. -/
def sampleCfg2 : SyncConfig := { sampleCfg with botsFilesUrls := ["http://x/a.js", "http://x/b.js"] }

/-- A deploy environment where the second artifact download is non-ok. -/
def failSecondEnv : DeployEnv :=
  ⟨none,
   fun u => if u = "http://x/b.js" then HttpText.notOk else HttpText.ok ("c-" ++ u),
   fun _ => none, none⟩

/-- A deploy environment where everything succeeds. -/
def allOkEnv : DeployEnv :=
  ⟨none, fun u => HttpText.ok ("c-" ++ u), fun _ => none, none⟩

/-- A quiet poll iteration carrying an approving deploy signal. -/
def approveIter : NetIter :=
  ⟨false, FetchResult.ok (JSValue.obj [("deploy", JSValue.bool true)]), false⟩

theorem typeof_number_iff (v : JSValue) : v.typeof = "number" ↔ ∃ n, v = JSValue.num n := by
  cases v <;> simp [JSValue.typeof]

theorem typeof_string_iff (v : JSValue) : v.typeof = "string" ↔ ∃ s, v = JSValue.str s := by
  cases v <;> simp [JSValue.typeof]

theorem matchCond_iff (cfg : SyncConfig) (opts : SyncOptions) (data : JSValue) :
    matchCond cfg opts data = true ↔
      ∃ n s, data.getProp "internalCode" = JSValue.num n ∧ n = cfg.internalCode ∧
        data.getProp "botId" = JSValue.str s ∧ s ≠ opts.botId := by
  constructor
  · intro h
    unfold matchCond isSyncData at h
    simp only [Bool.and_eq_true, Bool.not_eq_true', beq_iff_eq, Bool.not_eq_true] at h
    obtain ⟨⟨⟨⟨⟨hnn, hobj⟩, hnumT⟩, hstrT⟩, hnumEq⟩, hstrEq⟩ := h
    obtain ⟨n, hn⟩ := (typeof_number_iff _).mp hnumT
    obtain ⟨s, hs⟩ := (typeof_string_iff _).mp hstrT
    refine ⟨n, s, hn, ?_, hs, ?_⟩
    · rw [hn] at hnumEq
      simpa [numEq] using hnumEq
    · rw [hs] at hstrEq
      simpa [strEq] using hstrEq
  · rintro ⟨n, s, h1, rfl, h2, hs⟩
    cases data
    case obj fields =>
      unfold matchCond isSyncData
      rw [h1, h2]
      simp [JSValue.typeof, JSValue.isNull, numEq, strEq, hs]
    all_goals simp [JSValue.getProp] at h1

/-- C5: a probe attempt counts as a match exactly when the response is
HTTP-OK and parses to structured data whose numeric internalCode equals
the configured code and whose string botId differs from the agent's
own; in particular a response whose botId equals the agent's own is
rejected. -/
theorem C5_match_characterization (cfg : SyncConfig) (opts : SyncOptions) (resp : FetchResult) :
    ((tryConnectToGemelo cfg opts resp).1 = true ↔
      ∃ body n s, resp = FetchResult.ok body ∧
        body.getProp "internalCode" = JSValue.num n ∧ n = cfg.internalCode ∧
        body.getProp "botId" = JSValue.str s ∧ s ≠ opts.botId) ∧
    (∀ body, body.getProp "botId" = JSValue.str opts.botId →
      (tryConnectToGemelo cfg opts (FetchResult.ok body)).1 = false) := by
  have key : ∀ body, (tryConnectToGemelo cfg opts (FetchResult.ok body)).1 = true ↔
      matchCond cfg opts body = true := by
    intro body
    by_cases h : matchCond cfg opts body = true <;> simp [tryConnectToGemelo, h]
  constructor
  · cases resp with
    | exn m => simp [tryConnectToGemelo]
    | notOk => simp [tryConnectToGemelo]
    | ok data =>
      rw [key data, matchCond_iff]
      constructor
      · rintro ⟨n, s, h1, h2, h3, h4⟩
        exact ⟨data, n, s, rfl, h1, h2, h3, h4⟩
      · rintro ⟨body, n, s, hb, h1, h2, h3, h4⟩
        cases hb
        exact ⟨n, s, h1, h2, h3, h4⟩
  · intro body hb
    by_cases h : matchCond cfg opts body = true
    · exfalso
      obtain ⟨n, s, h1, h2, h3, h4⟩ := (matchCond_iff cfg opts body).mp h
      rw [hb] at h3
      exact h4 (JSValue.str.inj h3).symm
    · simp [tryConnectToGemelo, h]

/-- C5 witness: a concrete matching response is accepted and a concrete
self-identified response is rejected. -/
theorem C5_match_characterization_witness :
    (tryConnectToGemelo sampleCfg sampleOpts
      (FetchResult.ok (JSValue.obj
        [("internalCode", JSValue.num 720), ("botId", JSValue.str "other")]))).1 = true ∧
    (tryConnectToGemelo sampleCfg sampleOpts
      (FetchResult.ok (JSValue.obj
        [("internalCode", JSValue.num 720), ("botId", JSValue.str "me")]))).1 = false := by
  constructor
  · exact (C5_match_characterization sampleCfg sampleOpts _).1.mpr
      ⟨JSValue.obj [("internalCode", JSValue.num 720), ("botId", JSValue.str "other")],
       720, "other", rfl, rfl, rfl, rfl, by decide⟩
  · exact (C5_match_characterization sampleCfg sampleOpts FetchResult.notOk).2 _ rfl

/-- C9: omitted configuration fields take the documented defaults, and a
pingUrl that is omitted or supplied as the empty string is replaced by
the URL derived from the base URL and the agent's identifier. -/
theorem C9_constructor_defaults (opts : SyncOptions) (pc : PartialSyncConfig) :
    (pc.maxRetries = none → (mkConfig opts pc).maxRetries = 5) ∧
    (pc.retryIntervalMs = none → (mkConfig opts pc).retryIntervalMs = 7000) ∧
    (pc.connectionTimeoutMs = none → (mkConfig opts pc).connectionTimeoutMs = 8000) ∧
    (pc.internalCode = none → (mkConfig opts pc).internalCode = 720) ∧
    (pc.botsFilesUrls = none → (mkConfig opts pc).botsFilesUrls = []) ∧
    (pc.botsExecCommand = none → (mkConfig opts pc).botsExecCommand = "node bot.js") ∧
    (pc.deployPath = none → (mkConfig opts pc).deployPath = "./deployedBots") ∧
    ((pc.pingUrl = none ∨ pc.pingUrl = some "") →
      (mkConfig opts pc).pingUrl = opts.teraboxBaseUrl ++ "/sync/ping?botId=" ++ opts.botId) := by
  have hping : (pc.pingUrl = none ∨ pc.pingUrl = some "") →
      (mkConfig opts pc).pingUrl = opts.teraboxBaseUrl ++ "/sync/ping?botId=" ++ opts.botId := by
    rintro (h | h) <;> simp [mkConfig, h]
  refine ⟨?_, ?_, ?_, ?_, ?_, ?_, ?_, hping⟩ <;> intro h <;>
    simp only [mkConfig] <;> split <;> simp [h]

/-- C9 witness: the all-defaults construction. -/
theorem C9_constructor_defaults_witness :
    (mkConfig ⟨"b", "u"⟩ {}).maxRetries = 5 ∧
    (mkConfig ⟨"b", "u"⟩ {}).pingUrl = "u/sync/ping?botId=b" ∧
    (mkConfig ⟨"b", "u"⟩ { pingUrl := some "" }).pingUrl = "u/sync/ping?botId=b" := by
  refine ⟨(C9_constructor_defaults ⟨"b", "u"⟩ {}).1 rfl, ?_, ?_⟩
  · have := (C9_constructor_defaults ⟨"b", "u"⟩ {}).2.2.2.2.2.2.2 (Or.inl rfl)
    simpa using this
  · have := (C9_constructor_defaults ⟨"b", "u"⟩ { pingUrl := some "" }).2.2.2.2.2.2.2
      (Or.inr rfl)
    simpa using this

/-- C8 counterexample: a wake request answered with a non-success
response while listening produces no notification at all, contradicting
the claim that every failing wake request is reported via a non-fatal
notification. -/
theorem C8_counterexample :
    (wakeUpGemelo ⟨SyncState.listening, 0, false⟩ WakeResult.notOk).st.state
        = SyncState.listening ∧
    ¬ ∃ e, e ∈ (wakeUpGemelo ⟨SyncState.listening, 0, false⟩ WakeResult.notOk).events := by
  constructor
  · rfl
  · simp [wakeUpGemelo]

/-- C8 amended: for a wake request made while listening, a thrown fetch
is reported via the non-fatal error event, a non-success response is
silently ignored, and in both cases the state is unchanged. -/
theorem C8_wake_failure_amended (st : MState) (m : String)
    (h : st.state = SyncState.listening) :
    wakeUpGemelo st (WakeResult.exn m) = ⟨st, [Event.error m], [], []⟩ ∧
    wakeUpGemelo st WakeResult.notOk = ⟨st, [], [], []⟩ := by
  constructor <;> simp [wakeUpGemelo, h]

/-- C8 amended witness. -/
theorem C8_wake_failure_amended_witness :
    wakeUpGemelo ⟨SyncState.listening, 2, false⟩ (WakeResult.exn "neterr") =
      ⟨⟨SyncState.listening, 2, false⟩, [Event.error "neterr"], [], []⟩ ∧
    wakeUpGemelo ⟨SyncState.listening, 2, false⟩ WakeResult.notOk =
      ⟨⟨SyncState.listening, 2, false⟩, [], [], []⟩ :=
  C8_wake_failure_amended ⟨SyncState.listening, 2, false⟩ "neterr" rfl

/-- C1 counterexample: stop() fired while the first probe attempt's
request was in flight; the machine transitions to idle at that moment,
but once the attempt resolves the loop exits through its tail code and
performs a further transition to listening, so the state does not
remain idle. -/
theorem C1_counterexample :
    (startRun sampleCfg sampleOpts (fun _ => ⟨true, FetchResult.notOk, false⟩)
        (fun _ => missIter) emptyDeployEnv idleSt).events =
      [Event.stateChange SyncState.searching, Event.attempt 1,
       Event.stateChange SyncState.idle, Event.retrying 1,
       Event.stateChange SyncState.listening, Event.listening] ∧
    (startRun sampleCfg sampleOpts (fun _ => ⟨true, FetchResult.notOk, false⟩)
        (fun _ => missIter) emptyDeployEnv idleSt).st.state = SyncState.listening := by
  constructor <;> rfl

/-- C1 amended: stop() sets the flag and immediately transitions to
idle; once the flag is set the loops start no further attempts or
polls, but each loop still performs its exit transition when control
returns to it: the probe loop transitions to listening and the
signal-wait loop emits deploySignalTimeout and transitions to error. -/
theorem C1_stop_amended (cfg : SyncConfig) (opts : SyncOptions) (penv senv : Nat → NetIter)
    (denv : DeployEnv) (i fuel : Nat) (st stAny : MState) (h : st.isStopped = true) :
    (stop stAny).st.state = SyncState.idle ∧
    probeLoopGo cfg opts penv senv denv i fuel st = listeningOut st ∧
    waitLoopGo cfg senv denv i fuel st = signalTimeoutOut st := by
  refine ⟨rfl, ?_, ?_⟩ <;> cases fuel <;> simp [probeLoopGo, waitLoopGo, h]

/-- C1 amended witness. -/
theorem C1_stop_amended_witness :
    (stop idleSt).st.state = SyncState.idle ∧
    probeLoopGo sampleCfg sampleOpts (fun _ => missIter) (fun _ => missIter)
        emptyDeployEnv 0 3 ⟨SyncState.idle, 1, true⟩ =
      listeningOut ⟨SyncState.idle, 1, true⟩ ∧
    waitLoopGo sampleCfg (fun _ => missIter) emptyDeployEnv 0 3 ⟨SyncState.idle, 1, true⟩ =
      signalTimeoutOut ⟨SyncState.idle, 1, true⟩ :=
  C1_stop_amended sampleCfg sampleOpts (fun _ => missIter) (fun _ => missIter)
    emptyDeployEnv 0 3 ⟨SyncState.idle, 1, true⟩ idleSt rfl

theorem tryConnect_false_events (cfg : SyncConfig) (opts : SyncOptions) (r : FetchResult)
    (h : (tryConnectToGemelo cfg opts r).1 = false) :
    (tryConnectToGemelo cfg opts r).2 = [] := by
  cases r with
  | exn m => rfl
  | notOk => rfl
  | ok data =>
    by_cases hc : matchCond cfg opts data = true <;> simp [tryConnectToGemelo, hc] at h ⊢

theorem probeLoopGo_all_miss (cfg : SyncConfig) (opts : SyncOptions) (penv senv : Nat → NetIter)
    (denv : DeployEnv)
    (hq : ∀ j, (penv j).stopDuringFetch = false ∧ (penv j).stopDuringSleep = false)
    (hm : ∀ j, (tryConnectToGemelo cfg opts (penv j).resp).1 = false) :
    ∀ fuel i st, st.isStopped = false → st.retries + fuel = cfg.maxRetries →
      probeLoopGo cfg opts penv senv denv i fuel st =
        ⟨⟨SyncState.listening, cfg.maxRetries, false⟩,
         probeTrace fuel st.retries, [SyncState.listening], []⟩ := by
  intro fuel
  induction fuel with
  | zero =>
    intro i st hstop hsum
    obtain ⟨sSt, sRet, sStop⟩ := st
    simp at hstop hsum
    subst hstop
    subst hsum
    simp [probeLoopGo, listeningOut, probeTrace]
  | succ f ih =>
    intro i st hstop hsum
    obtain ⟨sSt, sRet, sStop⟩ := st
    simp at hstop hsum
    subst hstop
    have h1 := (hq i).1
    have h2 := (hq i).2
    have h3 := hm i
    have h4 := tryConnect_false_events cfg opts ((penv i).resp) h3
    by_cases hbreak : cfg.maxRetries ≤ sRet + 1
    · have hf : f = 0 := by omega
      subst hf
      have hmax : cfg.maxRetries = sRet + 1 := by omega
      simp [probeLoopGo, h1, h2, h3, h4, maybeStop, listeningOut, probeTrace, hmax]
    · have hrec := ih (i+1) ⟨sSt, sRet+1, false⟩ rfl (by simp; omega)
      simp only [probeLoopGo]
      rw [if_neg (by simp; omega)]
      simp [h1, h2, h3, h4, maybeStop, probeTrace, hbreak, hrec]

theorem probeTrace_count_attempt : ∀ n r, (probeTrace n r).countP isAttemptEv = n := by
  intro n
  induction n with
  | zero => intro r; simp [probeTrace, isAttemptEv]
  | succ k ih => intro r; simp [probeTrace, List.countP_cons, isAttemptEv, ih]

theorem probeTrace_count_retrying : ∀ n r, (probeTrace n r).countP isRetryingEv = n := by
  intro n
  induction n with
  | zero => intro r; simp [probeTrace, isRetryingEv]
  | succ k ih => intro r; simp [probeTrace, List.countP_cons, isRetryingEv, ih]

theorem probeTrace_count_error : ∀ n r, (probeTrace n r).countP isErrorEv = 0 := by
  intro n
  induction n with
  | zero => intro r; simp [probeTrace, isErrorEv]
  | succ k ih => intro r; simp [probeTrace, List.countP_cons, isErrorEv, ih]

/-- C3: with maxRetries = N and a prober that never matches (and stop
never called), the run performs exactly N attempt events and N retrying
events, ends in the listening state, and never assigns the error
state. -/
theorem C3_retry_budget (cfg : SyncConfig) (opts : SyncOptions) (penv senv : Nat → NetIter)
    (denv : DeployEnv) (st : MState) (N : Nat)
    (hN : cfg.maxRetries = N)
    (hq : ∀ j, (penv j).stopDuringFetch = false ∧ (penv j).stopDuringSleep = false)
    (hm : ∀ j, (tryConnectToGemelo cfg opts (penv j).resp).1 = false) :
    (startRun cfg opts penv senv denv st).events.countP isAttemptEv = N ∧
    (startRun cfg opts penv senv denv st).events.countP isRetryingEv = N ∧
    (startRun cfg opts penv senv denv st).st.state = SyncState.listening ∧
    SyncState.error ∉ (startRun cfg opts penv senv denv st).assigns := by
  have hrun := probeLoopGo_all_miss cfg opts penv senv denv hq hm cfg.maxRetries 0
    ⟨SyncState.searching, 0, false⟩ rfl (by simp)
  simp only [startRun, attemptConnectionLoop]
  rw [hrun]
  subst hN
  simp [List.countP_cons, isAttemptEv, isRetryingEv, probeTrace_count_attempt,
    probeTrace_count_retrying]

/-- C3 witness: maxRetries = 3 with an always-non-ok prober. -/
theorem C3_retry_budget_witness :
    (startRun sampleCfg sampleOpts (fun _ => missIter) (fun _ => missIter)
      emptyDeployEnv idleSt).events.countP isAttemptEv = 3 ∧
    (startRun sampleCfg sampleOpts (fun _ => missIter) (fun _ => missIter)
      emptyDeployEnv idleSt).events.countP isRetryingEv = 3 ∧
    (startRun sampleCfg sampleOpts (fun _ => missIter) (fun _ => missIter)
      emptyDeployEnv idleSt).st.state = SyncState.listening ∧
    SyncState.error ∉ (startRun sampleCfg sampleOpts (fun _ => missIter)
      (fun _ => missIter) emptyDeployEnv idleSt).assigns :=
  C3_retry_budget sampleCfg sampleOpts (fun _ => missIter) (fun _ => missIter)
    emptyDeployEnv idleSt 3 rfl (fun _ => ⟨rfl, rfl⟩) (fun _ => rfl)

/-- C2: a probe attempt whose request throws is handled exactly like an
explicit non-match: tryConnectToGemelo maps both to the same result, so
an all-exception run increments the retry counter to the budget with a
retrying event per attempt, never emits an error event, and exhaustion
transitions to listening, not error. -/
theorem C2_exception_as_nonmatch (cfg : SyncConfig) (opts : SyncOptions)
    (penv senv : Nat → NetIter) (denv : DeployEnv) (st : MState) (msgs : Nat → String)
    (hq : ∀ j, (penv j).stopDuringFetch = false ∧ (penv j).stopDuringSleep = false)
    (hexn : ∀ j, (penv j).resp = FetchResult.exn (msgs j)) :
    (∀ m, tryConnectToGemelo cfg opts (FetchResult.exn m) =
      tryConnectToGemelo cfg opts FetchResult.notOk) ∧
    (startRun cfg opts penv senv denv st).events.countP isRetryingEv = cfg.maxRetries ∧
    (startRun cfg opts penv senv denv st).events.countP isErrorEv = 0 ∧
    (startRun cfg opts penv senv denv st).st.state = SyncState.listening ∧
    (startRun cfg opts penv senv denv st).st.retries = cfg.maxRetries := by
  have hm : ∀ j, (tryConnectToGemelo cfg opts (penv j).resp).1 = false := by
    intro j
    rw [hexn j]
    rfl
  have hrun := probeLoopGo_all_miss cfg opts penv senv denv hq hm cfg.maxRetries 0
    ⟨SyncState.searching, 0, false⟩ rfl (by simp)
  refine ⟨fun m => rfl, ?_⟩
  simp only [startRun, attemptConnectionLoop]
  rw [hrun]
  simp [List.countP_cons, isRetryingEv, isErrorEv, probeTrace_count_retrying,
    probeTrace_count_error]

/-- C2 witness: an always-throwing prober with maxRetries = 3. -/
theorem C2_exception_as_nonmatch_witness :
    (∀ m, tryConnectToGemelo sampleCfg sampleOpts (FetchResult.exn m) =
      tryConnectToGemelo sampleCfg sampleOpts FetchResult.notOk) ∧
    (startRun sampleCfg sampleOpts (fun _ => ⟨false, FetchResult.exn "boom", false⟩)
      (fun _ => missIter) emptyDeployEnv idleSt).events.countP isRetryingEv
        = sampleCfg.maxRetries ∧
    (startRun sampleCfg sampleOpts (fun _ => ⟨false, FetchResult.exn "boom", false⟩)
      (fun _ => missIter) emptyDeployEnv idleSt).events.countP isErrorEv = 0 ∧
    (startRun sampleCfg sampleOpts (fun _ => ⟨false, FetchResult.exn "boom", false⟩)
      (fun _ => missIter) emptyDeployEnv idleSt).st.state = SyncState.listening ∧
    (startRun sampleCfg sampleOpts (fun _ => ⟨false, FetchResult.exn "boom", false⟩)
      (fun _ => missIter) emptyDeployEnv idleSt).st.retries = sampleCfg.maxRetries :=
  C2_exception_as_nonmatch sampleCfg sampleOpts
    (fun _ => ⟨false, FetchResult.exn "boom", false⟩) (fun _ => missIter)
    emptyDeployEnv idleSt (fun _ => "boom") (fun _ => ⟨rfl, rfl⟩) (fun _ => rfl)

theorem waitLoopGo_all_miss (cfg : SyncConfig) (senv : Nat → NetIter) (denv : DeployEnv)
    (hq : ∀ j, (senv j).stopDuringFetch = false ∧ (senv j).stopDuringSleep = false)
    (hm : ∀ j, approvingPoll (senv j).resp = false) :
    ∀ fuel p st, st.isStopped = false →
      waitLoopGo cfg senv denv p fuel st =
        ⟨⟨SyncState.error, st.retries, false⟩,
         pollErrTrace senv p fuel ++
           [Event.deploySignalTimeout, Event.stateChange SyncState.error,
            Event.error "Timeout esperando señal de deploy"],
         [SyncState.error], []⟩ := by
  intro fuel
  induction fuel with
  | zero =>
    intro p st hstop
    obtain ⟨sSt, sRet, sStop⟩ := st
    simp at hstop
    subst hstop
    simp [waitLoopGo, signalTimeoutOut, pollErrTrace]
  | succ f ih =>
    intro p st hstop
    obtain ⟨sSt, sRet, sStop⟩ := st
    simp at hstop
    subst hstop
    have h1 := (hq p).1
    have h2 := (hq p).2
    have hrec := ih (p+1) ⟨sSt, sRet, false⟩ rfl
    cases hres : (senv p).resp with
    | ok body =>
      have happ : approvingBody body = false := by
        have := hm p
        rw [hres] at this
        simpa [approvingPoll] using this
      simp [waitLoopGo, h1, h2, maybeStop, hres, happ, pollErrTrace, hrec]
    | notOk =>
      simp [waitLoopGo, h1, h2, maybeStop, hres, pollErrTrace, hrec]
    | exn m =>
      simp [waitLoopGo, h1, h2, maybeStop, hres, pollErrTrace, hrec]

theorem pollErrTrace_count_timeout (senv : Nat → NetIter) :
    ∀ fuel p, (pollErrTrace senv p fuel).countP isTimeoutEv = 0 := by
  intro fuel
  induction fuel with
  | zero => intro p; simp [pollErrTrace]
  | succ f ih =>
    intro p
    cases hres : (senv p).resp <;>
      simp [pollErrTrace, hres, List.countP_append, List.countP_cons, isTimeoutEv, ih]

/-- C4: thirty consecutive polls none of which is approving (and stop
never called) emit exactly one deploySignalTimeout event and leave the
machine in the error state with the descriptive timeout cause. -/
theorem C4_poll_exhaustion (cfg : SyncConfig) (senv : Nat → NetIter) (denv : DeployEnv)
    (st : MState) (hstop : st.isStopped = false)
    (hq : ∀ j, (senv j).stopDuringFetch = false ∧ (senv j).stopDuringSleep = false)
    (hm : ∀ j, approvingPoll (senv j).resp = false) :
    (waitForDeploySignal cfg senv denv st).events.countP isTimeoutEv = 1 ∧
    (waitForDeploySignal cfg senv denv st).st.state = SyncState.error ∧
    Event.error "Timeout esperando señal de deploy"
      ∈ (waitForDeploySignal cfg senv denv st).events := by
  have hrun := waitLoopGo_all_miss cfg senv denv hq hm maxPolls 0
    ⟨SyncState.deploying, st.retries, false⟩ rfl
  simp only [waitForDeploySignal]
  rw [hstop, hrun]
  simp [List.countP_cons, List.countP_append, isTimeoutEv, pollErrTrace_count_timeout]

/-- C4 witness: an always-non-ok deploy-signal endpoint. -/
theorem C4_poll_exhaustion_witness :
    (waitForDeploySignal sampleCfg (fun _ => missIter) emptyDeployEnv
      ⟨SyncState.connected, 1, false⟩).events.countP isTimeoutEv = 1 ∧
    (waitForDeploySignal sampleCfg (fun _ => missIter) emptyDeployEnv
      ⟨SyncState.connected, 1, false⟩).st.state = SyncState.error ∧
    Event.error "Timeout esperando señal de deploy"
      ∈ (waitForDeploySignal sampleCfg (fun _ => missIter) emptyDeployEnv
          ⟨SyncState.connected, 1, false⟩).events :=
  C4_poll_exhaustion sampleCfg (fun _ => missIter) emptyDeployEnv
    ⟨SyncState.connected, 1, false⟩ rfl (fun _ => ⟨rfl, rfl⟩) (fun _ => rfl)

theorem downloadAll_all_ok (cfg : SyncConfig) (env : DeployEnv) :
    ∀ urls : List String,
      (∀ j, j < urls.length →
        (∃ b, env.fetchFile (urls.getD j "") = HttpText.ok b) ∧
        env.writeError (cfg.deployPath ++ "/" ++ basename (urls.getD j "")) = none) →
      downloadAll cfg env urls = ⟨okDownloadTrace urls, okWrites cfg env urls, none⟩ := by
  intro urls
  induction urls with
  | nil => intro h; simp [downloadAll, okDownloadTrace, okWrites]
  | cons u rest ih =>
    intro h
    obtain ⟨⟨b, hb⟩, hw⟩ := h 0 (by simp)
    simp only [List.getD_cons_zero] at hb hw
    have ih' := ih fun j hj => by
      have := h (j+1) (by simpa using Nat.succ_lt_succ hj)
      simpa using this
    simp [downloadAll, hb, hw, okDownloadTrace, okWrites, ih', bodyText]

theorem downloadAll_fail_at (cfg : SyncConfig) (env : DeployEnv) :
    ∀ (urls : List String) (i : Nat), i < urls.length →
      (∀ j, j < i →
        (∃ b, env.fetchFile (urls.getD j "") = HttpText.ok b) ∧
        env.writeError (cfg.deployPath ++ "/" ++ basename (urls.getD j "")) = none) →
      env.fetchFile (urls.getD i "") = HttpText.notOk →
      downloadAll cfg env urls =
        ⟨okDownloadTrace (urls.take i) ++ [Event.downloadStart (urls.getD i "")],
         okWrites cfg env (urls.take i),
         some ("No se pudo descargar archivo: " ++ urls.getD i "")⟩ := by
  intro urls
  induction urls with
  | nil => intro i hi; simp at hi
  | cons u rest ih =>
    intro i hi hok hfail
    cases i with
    | zero =>
      simp only [List.getD_cons_zero] at hfail ⊢
      simp [downloadAll, hfail, okDownloadTrace, okWrites]
    | succ n =>
      obtain ⟨⟨b, hb⟩, hw⟩ := hok 0 (Nat.succ_pos n)
      simp only [List.getD_cons_zero] at hb hw
      simp only [List.getD_cons_succ] at hfail ⊢
      have ih' := ih n (by simpa using hi)
        (fun j hj => by simpa using hok (j+1) (Nat.succ_lt_succ hj)) hfail
      simp [downloadAll, hb, hw, okDownloadTrace, okWrites, ih', bodyText]

/-- C6: the deploy sequence fetches and writes the artifact urls in
their listed order; a non-success fetch on artifact i aborts the
deployment before artifact i+1 is attempted and transitions the machine
to the error state, with only the first i files written. -/
theorem C6_deploy_order_abort (cfg : SyncConfig) (denv : DeployEnv) (st : MState) (i : Nat)
    (hmk : denv.mkdirError = none)
    (hi : i < cfg.botsFilesUrls.length)
    (hok : ∀ j, j < i →
      (∃ b, denv.fetchFile (cfg.botsFilesUrls.getD j "") = HttpText.ok b) ∧
      denv.writeError (cfg.deployPath ++ "/" ++ basename (cfg.botsFilesUrls.getD j "")) = none)
    (hfail : denv.fetchFile (cfg.botsFilesUrls.getD i "") = HttpText.notOk) :
    deployBots cfg denv st =
      ⟨{ st with state := SyncState.error },
       Event.deployStart ::
         (okDownloadTrace (cfg.botsFilesUrls.take i) ++
           [Event.downloadStart (cfg.botsFilesUrls.getD i "")]) ++
         [Event.stateChange SyncState.error,
          Event.error ("No se pudo descargar archivo: " ++ cfg.botsFilesUrls.getD i "")],
       [SyncState.error],
       okWrites cfg denv (cfg.botsFilesUrls.take i)⟩ ∧
    (∀ denv2 : DeployEnv, denv2.mkdirError = none → denv2.execFailure = none →
      (∀ j, j < cfg.botsFilesUrls.length →
        (∃ b, denv2.fetchFile (cfg.botsFilesUrls.getD j "") = HttpText.ok b) ∧
        denv2.writeError
          (cfg.deployPath ++ "/" ++ basename (cfg.botsFilesUrls.getD j "")) = none) →
      deployBots cfg denv2 st =
        ⟨st,
         Event.deployStart :: okDownloadTrace cfg.botsFilesUrls ++
           [Event.deployFilesWritten, Event.execStart cfg.botsExecCommand,
            Event.execSuccess, Event.deploySuccess],
         [], okWrites cfg denv2 cfg.botsFilesUrls⟩) := by
  constructor
  · have hd := downloadAll_fail_at cfg denv cfg.botsFilesUrls i hi hok hfail
    simp [deployBots, hmk, hd, setError]
  · intro denv2 hmk2 hexec2 hall
    have hd := downloadAll_all_ok cfg denv2 cfg.botsFilesUrls hall
    simp [deployBots, hmk2, hexec2, hd]

/-- C6 witness: two artifacts, the second download non-ok: the run stops
after the second downloadStart with only the first file written. -/
theorem C6_deploy_order_abort_witness :
    deployBots sampleCfg2 failSecondEnv idleSt =
      ⟨⟨SyncState.error, 0, false⟩,
       [Event.deployStart, Event.downloadStart "http://x/a.js",
        Event.downloadComplete "a.js", Event.downloadStart "http://x/b.js",
        Event.stateChange SyncState.error,
        Event.error "No se pudo descargar archivo: http://x/b.js"],
       [SyncState.error],
       [("./d/a.js", "c-http://x/a.js")]⟩ := by
  have h := (C6_deploy_order_abort sampleCfg2 failSecondEnv idleSt 1 rfl (by decide)
    (fun j hj => by
      have hj0 : j = 0 := by omega
      subst hj0
      exact ⟨⟨"c-http://x/a.js", by decide⟩, rfl⟩)
    (by decide)).1
  rw [h]
  decide

theorem maybeStop_count_timeout (b : Bool) (st : MState) :
    (maybeStop b st).events.countP isTimeoutEv = 0 := by
  cases b <;> simp [maybeStop, stop, isTimeoutEv]

theorem downloadAll_count_error (cfg : SyncConfig) (env : DeployEnv) :
    ∀ urls : List String, (downloadAll cfg env urls).events.countP isErrorEv = 0 := by
  intro urls
  induction urls with
  | nil => simp [downloadAll]
  | cons u rest ih =>
    cases hf : env.fetchFile u with
    | exn m => simp [downloadAll, hf, isErrorEv]
    | notOk => simp [downloadAll, hf, isErrorEv]
    | ok b =>
      cases hw : env.writeError (cfg.deployPath ++ "/" ++ basename u) with
      | some m => simp [downloadAll, hf, hw, isErrorEv]
      | none => simp [downloadAll, hf, hw, List.countP_cons, isErrorEv, ih]

theorem downloadAll_count_timeout (cfg : SyncConfig) (env : DeployEnv) :
    ∀ urls : List String, (downloadAll cfg env urls).events.countP isTimeoutEv = 0 := by
  intro urls
  induction urls with
  | nil => simp [downloadAll]
  | cons u rest ih =>
    cases hf : env.fetchFile u with
    | exn m => simp [downloadAll, hf, isTimeoutEv]
    | notOk => simp [downloadAll, hf, isTimeoutEv]
    | ok b =>
      cases hw : env.writeError (cfg.deployPath ++ "/" ++ basename u) with
      | some m => simp [downloadAll, hf, hw, isTimeoutEv]
      | none => simp [downloadAll, hf, hw, List.countP_cons, isTimeoutEv, ih]

theorem deployBots_count_timeout (cfg : SyncConfig) (env : DeployEnv) (st : MState) :
    (deployBots cfg env st).events.countP isTimeoutEv = 0 := by
  cases hmk : env.mkdirError with
  | some m => simp [deployBots, hmk, setError, isTimeoutEv, List.countP_cons]
  | none =>
    cases hth : (downloadAll cfg env cfg.botsFilesUrls).thrown with
    | some m =>
      simp [deployBots, hmk, hth, setError, List.countP_cons, List.countP_append,
        isTimeoutEv, downloadAll_count_timeout]
    | none =>
      cases hex : env.execFailure with
      | some m =>
        simp [deployBots, hmk, hth, hex, setError, List.countP_cons, List.countP_append,
          isTimeoutEv, downloadAll_count_timeout]
      | none =>
        simp [deployBots, hmk, hth, hex, List.countP_cons, List.countP_append,
          isTimeoutEv, downloadAll_count_timeout]

theorem deployBots_absorbed (cfg : SyncConfig) (env : DeployEnv) (st : MState) :
    (deployBots cfg env st).events.countP isErrorEv
        = (if deployFails cfg env then 1 else 0) ∧
    (deployBots cfg env st).st
        = (if deployFails cfg env then { st with state := SyncState.error } else st) := by
  cases hmk : env.mkdirError with
  | some m =>
    simp [deployBots, deployFails, hmk, setError, isErrorEv, List.countP_cons]
  | none =>
    cases hth : (downloadAll cfg env cfg.botsFilesUrls).thrown with
    | some m =>
      simp [deployBots, deployFails, hmk, hth, setError, List.countP_cons,
        List.countP_append, isErrorEv, downloadAll_count_error]
    | none =>
      cases hex : env.execFailure with
      | some m =>
        simp [deployBots, deployFails, hmk, hth, hex, setError, List.countP_cons,
          List.countP_append, isErrorEv, downloadAll_count_error]
      | none =>
        simp [deployBots, deployFails, hmk, hth, hex, List.countP_cons,
          List.countP_append, isErrorEv, downloadAll_count_error]

theorem waitLoopGo_reach_no_timeout (cfg : SyncConfig) (senv : Nat → NetIter)
    (denv : DeployEnv) (i : Nat)
    (hq : ∀ j, j < i →
      ((senv j).stopDuringFetch = false ∧ (senv j).stopDuringSleep = false) ∧
      approvingPoll (senv j).resp = false)
    (happ : approvingPoll (senv i).resp = true) :
    ∀ fuel p st, st.isStopped = false → p ≤ i → i < p + fuel →
      (waitLoopGo cfg senv denv p fuel st).events.countP isTimeoutEv = 0 := by
  intro fuel
  induction fuel with
  | zero => intro p st _ hpi hib; omega
  | succ f ih =>
    intro p st hstop hpi hib
    by_cases hpe : p = i
    · subst hpe
      cases hres : (senv p).resp with
      | exn m => rw [hres] at happ; simp [approvingPoll] at happ
      | notOk => rw [hres] at happ; simp [approvingPoll] at happ
      | ok body =>
        have hb : approvingBody body = true := by
          rw [hres] at happ
          simpa [approvingPoll] using happ
        simp [waitLoopGo, hstop, hres, hb, List.countP_append, List.countP_cons,
          isTimeoutEv, maybeStop_count_timeout, deployBots_count_timeout]
    · have hplt : p < i := Nat.lt_of_le_of_ne hpi hpe
      obtain ⟨⟨h1, h2⟩, hnap⟩ := hq p hplt
      have hrec := ih (p+1) st hstop hplt (by omega)
      cases hres : (senv p).resp with
      | ok body =>
        have hb : approvingBody body = false := by
          rw [hres] at hnap
          simpa [approvingPoll] using hnap
        simp [waitLoopGo, hstop, hres, hb, h1, h2, maybeStop, List.countP_append, hrec]
      | notOk =>
        simp [waitLoopGo, hstop, hres, h1, h2, maybeStop, List.countP_append, hrec]
      | exn m =>
        simp [waitLoopGo, hstop, hres, h1, h2, maybeStop, List.countP_append,
          List.countP_cons, isTimeoutEv, hrec]

/-- C10: deployBots absorbs every deploy-phase failure internally,
emitting exactly one error event and setting the error state when any
step fails (and emitting none and leaving the state untouched
otherwise); and a signal-wait run that receives approval on poll i
never emits deploySignalTimeout. -/
theorem C10_deploy_failures_absorbed (cfg : SyncConfig) (denv : DeployEnv)
    (st st2 : MState) (senv : Nat → NetIter) (i : Nat)
    (hstop : st2.isStopped = false)
    (hi : i < maxPolls)
    (hq : ∀ j, j < i →
      ((senv j).stopDuringFetch = false ∧ (senv j).stopDuringSleep = false) ∧
      approvingPoll (senv j).resp = false)
    (happ : approvingPoll (senv i).resp = true) :
    (deployBots cfg denv st).events.countP isErrorEv
        = (if deployFails cfg denv then 1 else 0) ∧
    (deployBots cfg denv st).st
        = (if deployFails cfg denv then { st with state := SyncState.error } else st) ∧
    (waitForDeploySignal cfg senv denv st2).events.countP isTimeoutEv = 0 := by
  refine ⟨(deployBots_absorbed cfg denv st).1, (deployBots_absorbed cfg denv st).2, ?_⟩
  have hrun := waitLoopGo_reach_no_timeout cfg senv denv i hq happ maxPolls 0
    ⟨SyncState.deploying, st2.retries, false⟩ rfl (Nat.zero_le i) (by omega)
  simp only [waitForDeploySignal]
  rw [hstop]
  simp [List.countP_cons, isTimeoutEv, hrun]

/-- C10 witness: an all-successful deploy triggered by an approving
first poll. -/
theorem C10_deploy_failures_absorbed_witness :
    (deployBots sampleCfg2 allOkEnv ⟨SyncState.deploying, 0, false⟩).events.countP isErrorEv
        = (if deployFails sampleCfg2 allOkEnv then 1 else 0) ∧
    (deployBots sampleCfg2 allOkEnv ⟨SyncState.deploying, 0, false⟩).st
        = (if deployFails sampleCfg2 allOkEnv then
            { (⟨SyncState.deploying, 0, false⟩ : MState) with state := SyncState.error }
          else ⟨SyncState.deploying, 0, false⟩) ∧
    (waitForDeploySignal sampleCfg2 (fun _ => approveIter) allOkEnv
      ⟨SyncState.connected, 1, false⟩).events.countP isTimeoutEv = 0 :=
  C10_deploy_failures_absorbed sampleCfg2 allOkEnv ⟨SyncState.deploying, 0, false⟩
    ⟨SyncState.connected, 1, false⟩ (fun _ => approveIter) 0 rfl (by decide)
    (fun j hj => absurd hj (by omega)) rfl

theorem scPayloads_nil : scPayloads [] = [] := rfl

theorem scPayloads_append (a b : List Event) :
    scPayloads (a ++ b) = scPayloads a ++ scPayloads b := by
  simp [scPayloads, List.filterMap_append]

theorem scPayloads_cons (e : Event) (l : List Event) :
    scPayloads (e :: l) =
      (match e with | Event.stateChange s => [s] | _ => []) ++ scPayloads l := by
  cases e <;> simp [scPayloads, List.filterMap_cons]

theorem maybeStop_assigns (b : Bool) (st : MState) :
    (maybeStop b st).assigns = scPayloads (maybeStop b st).events := by
  cases b <;> simp [maybeStop, stop, scPayloads]

theorem maybeStop_retries (b : Bool) (st : MState) :
    (maybeStop b st).st.retries = st.retries := by
  cases b <;> simp [maybeStop, stop]

theorem tryConnect_scPayloads (cfg : SyncConfig) (opts : SyncOptions) (r : FetchResult) :
    scPayloads (tryConnectToGemelo cfg opts r).2 = [] := by
  cases r with
  | exn m => rfl
  | notOk => rfl
  | ok data =>
    by_cases hc : matchCond cfg opts data = true <;>
      simp [tryConnectToGemelo, hc, scPayloads]

theorem downloadAll_scPayloads (cfg : SyncConfig) (env : DeployEnv) :
    ∀ urls : List String, scPayloads (downloadAll cfg env urls).events = [] := by
  intro urls
  induction urls with
  | nil => simp [downloadAll, scPayloads_nil]
  | cons u rest ih =>
    cases hf : env.fetchFile u with
    | exn m => simp [downloadAll, hf, scPayloads_cons, scPayloads_nil]
    | notOk => simp [downloadAll, hf, scPayloads_cons, scPayloads_nil]
    | ok b =>
      cases hw : env.writeError (cfg.deployPath ++ "/" ++ basename u) with
      | some m => simp [downloadAll, hf, hw, scPayloads_cons, scPayloads_nil]
      | none => simp [downloadAll, hf, hw, scPayloads_cons, ih]

theorem deployBots_scPayloads (cfg : SyncConfig) (env : DeployEnv) (st : MState) :
    (deployBots cfg env st).assigns = scPayloads (deployBots cfg env st).events := by
  cases hmk : env.mkdirError with
  | some m =>
    simp [deployBots, hmk, setError, scPayloads_cons, scPayloads_nil]
  | none =>
    cases hth : (downloadAll cfg env cfg.botsFilesUrls).thrown with
    | some m =>
      simp [deployBots, hmk, hth, setError, scPayloads_cons, scPayloads_append,
        scPayloads_nil, downloadAll_scPayloads]
    | none =>
      cases hex : env.execFailure with
      | some m =>
        simp [deployBots, hmk, hth, hex, setError, scPayloads_cons, scPayloads_append,
          scPayloads_nil, downloadAll_scPayloads]
      | none =>
        simp [deployBots, hmk, hth, hex, scPayloads_cons, scPayloads_append,
          scPayloads_nil, downloadAll_scPayloads]

theorem waitLoopGo_scPayloads (cfg : SyncConfig) (senv : Nat → NetIter) (denv : DeployEnv) :
    ∀ fuel p st, (waitLoopGo cfg senv denv p fuel st).assigns
        = scPayloads (waitLoopGo cfg senv denv p fuel st).events := by
  intro fuel
  induction fuel with
  | zero =>
    intro p st
    simp [waitLoopGo, signalTimeoutOut, scPayloads_cons, scPayloads_nil]
  | succ f ih =>
    intro p st
    by_cases hstop : st.isStopped = true
    · simp [waitLoopGo, hstop, signalTimeoutOut, scPayloads_cons, scPayloads_nil]
    · cases hres : (senv p).resp with
      | ok body =>
        by_cases hb : approvingBody body = true
        · simp [waitLoopGo, hstop, hres, hb, scPayloads_append, scPayloads_cons,
            scPayloads_nil, maybeStop_assigns, deployBots_scPayloads]
        · simp [waitLoopGo, hstop, hres, hb, scPayloads_append, scPayloads_cons,
            scPayloads_nil, maybeStop_assigns, ih]
      | notOk =>
        simp [waitLoopGo, hstop, hres, scPayloads_append, scPayloads_cons,
          scPayloads_nil, maybeStop_assigns, ih]
      | exn m =>
        simp [waitLoopGo, hstop, hres, scPayloads_append, scPayloads_cons,
          scPayloads_nil, maybeStop_assigns, ih]

theorem waitForDeploySignal_scPayloads (cfg : SyncConfig) (senv : Nat → NetIter)
    (denv : DeployEnv) (st : MState) :
    (waitForDeploySignal cfg senv denv st).assigns
        = scPayloads (waitForDeploySignal cfg senv denv st).events := by
  simp [waitForDeploySignal, scPayloads_cons, waitLoopGo_scPayloads]

theorem probeLoopGo_scPayloads (cfg : SyncConfig) (opts : SyncOptions)
    (penv senv : Nat → NetIter) (denv : DeployEnv) :
    ∀ fuel i st, (probeLoopGo cfg opts penv senv denv i fuel st).assigns
        = scPayloads (probeLoopGo cfg opts penv senv denv i fuel st).events := by
  intro fuel
  induction fuel with
  | zero =>
    intro i st
    simp [probeLoopGo, listeningOut, scPayloads_cons, scPayloads_nil]
  | succ f ih =>
    intro i st
    rcases Decidable.em (st.isStopped = true ∨ cfg.maxRetries ≤ st.retries) with hg | hg
    · simp only [probeLoopGo]
      rw [if_pos hg]
      simp [listeningOut, scPayloads_cons, scPayloads_nil]
    · simp only [probeLoopGo]
      rw [if_neg hg]
      by_cases hc : (tryConnectToGemelo cfg opts (penv i).resp).1 = true
      · simp [hc, scPayloads_append, scPayloads_cons, scPayloads_nil, maybeStop_assigns,
          tryConnect_scPayloads, waitForDeploySignal_scPayloads]
      · by_cases hbk : cfg.maxRetries ≤ st.retries + 1
        · simp [hc, hbk, maybeStop_retries, listeningOut, scPayloads_append,
            scPayloads_cons, scPayloads_nil, maybeStop_assigns, tryConnect_scPayloads]
        · simp [hc, hbk, maybeStop_retries, scPayloads_append, scPayloads_cons,
            scPayloads_nil, maybeStop_assigns, tryConnect_scPayloads, ih]

/-- C7: every assignment to the machine's state is paired with a
stateChange notification carrying that new state, for every public
operation (start under any environment, stop, and wakeUpGemelo): the
sequence of assigned states equals the sequence of stateChange
payloads. -/
theorem C7_assign_emits_stateChange (cfg : SyncConfig) (opts : SyncOptions)
    (penv senv : Nat → NetIter) (denv : DeployEnv) (st : MState) (res : WakeResult) :
    (startRun cfg opts penv senv denv st).assigns
        = scPayloads (startRun cfg opts penv senv denv st).events ∧
    (stop st).assigns = scPayloads (stop st).events ∧
    (wakeUpGemelo st res).assigns = scPayloads (wakeUpGemelo st res).events := by
  refine ⟨?_, ?_, ?_⟩
  · simp [startRun, attemptConnectionLoop, scPayloads_cons, probeLoopGo_scPayloads]
  · simp [stop, scPayloads]
  · by_cases h : st.state = SyncState.listening
    · cases res <;> simp [wakeUpGemelo, h, scPayloads]
    · simp [wakeUpGemelo, h, scPayloads]

end LasLunas
